import Mathlib

/-!
# bbb-playback: the player and chat components

A shallow embedding of `src/components/player.js` and
`src/components/chat/index.js`.

Conventions of the embedding:

* a JavaScript number that carries a time is a rational (`ℚ`): every finite
  double is a rational and `Math.round` of a finite double is exact, so
  nothing is lost on finite values (`NaN` and the infinities are outside the
  model);
* an object reference that may be `null`/`undefined` is an `Option`; an
  object is truthy and `null`/`undefined` falsy, so `a && b` on references is
  `a.isSome && b.isSome`;
* `this` is passed and returned explicitly; `setState` is applied at once;
* the helpers imported from `utils/data` and `utils/synchronizer`
  (`AUTO_SCROLL`, `getCurrentDataIndex`, `getScrollTop`, `isEnabled`,
  `Synchronizer`) are not part of these files and are taken as parameters,
  under their own names.
-/

namespace BbbPlayback

/-! ## Data -/

/-- One entry of the chat timeline (`const { message, name, timestamp } = item`). -/
structure ChatItem where
  message : String
  name : String
  timestamp : ℚ
  deriving DecidableEq, Repr

/-- `Math.round` on a finite number: the nearest integer, a tie going up. -/
def mathRound (value : ℚ) : ℚ := ((⌊value + 1 / 2⌋ : ℤ) : ℚ)

/-! ## Player (`src/components/player.js`) -/

/-- `this.state` of `Player`. -/
structure PlayerState where
  time : ℚ
  thumbnails : Bool
  deriving DecidableEq, Repr

/-- The object handed to `setState`: the keys it carries. -/
structure StateUpdate where
  time : Option ℚ
  thumbnails : Option Bool
  deriving DecidableEq, Repr

/-- `this.player`: the two player slots. -/
structure PlayerSlots (P : Type) where
  video : Option P
  screenshare : Option P
  deriving DecidableEq, Repr

/-- The `Player` component instance. `P` is a media player handle, `S` a
synchronizer, `W` an entry of the screenshare timeline, `I` the `intl` prop.
`setStateCalls` records the `setState` calls made so far, oldest first. The
remaining instance fields (captions, cursor, metadata, slides, ...) are only
handed on to child components and are left out. -/
structure Player (P S W I : Type) where
  intl : I
  state : PlayerState
  player : PlayerSlots P
  synchronizer : Option S
  chat : List ChatItem
  screenshare : List W
  setStateCalls : List StateUpdate

variable {P S W I : Type}

/-- The constructor: `time: 0`, `thumbnails: false`, both slots `null`, and
`this.synchronizer` not yet assigned. -/
def Player.new (intl : I) (chat : List ChatItem) (screenshare : List W) : Player P S W I :=
  { intl := intl
    state := { time := 0, thumbnails := false }
    player := { video := none, screenshare := none }
    synchronizer := none
    chat := chat
    screenshare := screenshare
    setStateCalls := [] }

/-- React's `setState` with an object: the keys present are merged. -/
def Player.setState (self : Player P S W I) (u : StateUpdate) : Player P S W I :=
  { self with
    state :=
      { time := u.time.getD self.state.time
        thumbnails := u.thumbnails.getD self.state.thumbnails }
    setStateCalls := self.setStateCalls ++ [u] }

/-- `handlePlayerReady(media, player)`. -/
def Player.handlePlayerReady (Synchronizer : P → P → S) (self : Player P S W I)
    (media : String) (player : Option P) : Player P S W I :=
  let self1 : Player P S W I :=
    if media = "video" then
      { self with player := { self.player with video := player } }
    else if media = "screenshare" then
      { self with player := { self.player with screenshare := player } }
    else self
  match self1.player.video, self1.player.screenshare with
  | some video, some screenshare =>
    { self1 with synchronizer := some (Synchronizer video screenshare) }
  | _, _ => self1

/-- `handleTimeUpdate(value)`. -/
def Player.handleTimeUpdate (self : Player P S W I) (value : ℚ) : Player P S W I :=
  let time := self.state.time
  let roundedValue := mathRound value
  if time ≠ roundedValue then
    self.setState { time := some roundedValue, thumbnails := none }
  else self

/-- The object returned by `getActiveMain`. -/
structure ActiveMain where
  presentation : Bool
  screenshare : Bool
  deriving DecidableEq, Repr

/-- `getActiveMain()`. -/
def Player.getActiveMain (isEnabled : List W → ℚ → Bool) (self : Player P S W I) :
    ActiveMain :=
  let time := self.state.time
  let screenshare := isEnabled self.screenshare time
  { presentation := !screenshare, screenshare := screenshare }

/-- `toggleThumbnails()`. -/
def Player.toggleThumbnails (self : Player P S W I) : Player P S W I :=
  let thumbnails := self.state.thumbnails
  self.setState { time := none, thumbnails := some (!thumbnails) }

/-- The props of `Chat`. -/
structure ChatProps (P I : Type) where
  chat : List ChatItem
  currentDataIndex : ℤ
  intl : I
  player : Option P

/-- `Player.renderChat()`: the props given to `<Chat>`. -/
def Player.renderChat (getCurrentDataIndex : List ChatItem → ℚ → ℤ)
    (self : Player P S W I) : ChatProps P I :=
  let time := self.state.time
  let video := self.player.video
  let currentDataIndex := getCurrentDataIndex self.chat time
  { chat := self.chat, currentDataIndex := currentDataIndex, intl := self.intl,
    player := video }

/-- The props of `<Presentation>` that depend on the player's state. -/
structure PresentationProps where
  active : Bool
  time : ℚ
  deriving DecidableEq, Repr

/-- `renderPresentation(active)`. -/
def Player.renderPresentation (self : Player P S W I) (active : Bool) : PresentationProps :=
  let time := self.state.time
  { active := active, time := time }

/-- The props of `<Screenshare>` that depend on the player's state; its
`onPlayerReady` is `handlePlayerReady`. -/
structure ScreenshareProps where
  active : Bool
  deriving DecidableEq, Repr

/-- `renderScreenshare(active)`: `null` when there is no screenshare. -/
def Player.renderScreenshare (self : Player P S W I) (active : Bool) :
    Option ScreenshareProps :=
  if self.screenshare.length = 0 then none
  else some { active := active }

/-- `renderMain()`: the two children of the content `div`. -/
def Player.renderMain (isEnabled : List W → ℚ → Bool) (self : Player P S W I) :
    PresentationProps × Option ScreenshareProps :=
  let m := self.getActiveMain isEnabled
  (self.renderPresentation m.presentation, self.renderScreenshare m.screenshare)

/-- A call of `handlePlayerReady`: the medium and the player. -/
abbrev ReadyCall (P : Type) := String × Option P

/-- The instance after a sequence of `handlePlayerReady` calls. -/
def Player.readyCalls (Synchronizer : P → P → S) (self : Player P S W I)
    (calls : List (ReadyCall P)) : Player P S W I :=
  calls.foldl (fun p c => p.handlePlayerReady Synchronizer c.1 c.2) self

/-- The instances after each of a sequence of `handleTimeUpdate` calls. -/
def Player.timeUpdates (self : Player P S W I) : List ℚ → List (Player P S W I)
  | [] => []
  | v :: vs => self.handleTimeUpdate v :: (self.handleTimeUpdate v).timeUpdates vs

/-! ## Chat (`src/components/chat/index.js`) -/

/-- A DOM node handed to a `ref` callback: its own identity and the element
that is its `parentNode`. -/
structure Node where
  id : ℕ
  parentNode : ℕ
  deriving DecidableEq, Repr

/-- The part of the document that `Chat` writes: the `scrollTop` of every
element, and the assignments to `scrollTop` made so far, oldest first. -/
structure Dom where
  scrollTop : ℕ → ℚ
  scrollTopWrites : List (ℕ × ℚ)

/-- The assignment `element.scrollTop = value`. -/
def Dom.setScrollTop (dom : Dom) (element : ℕ) (value : ℚ) : Dom :=
  { scrollTop := fun e => if e = element then value else dom.scrollTop e
    scrollTopWrites := dom.scrollTopWrites ++ [(element, value)] }

/-- The `Chat` component instance: its props and the two node fields. -/
structure Chat (P I : Type) where
  props : ChatProps P I
  firstNode : Option Node
  currentNode : Option Node

/-- The constructor: neither node field is assigned. -/
def Chat.new (props : ChatProps P I) : Chat P I :=
  { props := props, firstNode := none, currentNode := none }

/-- `shouldComponentUpdate(nextProps)`. -/
def Chat.shouldComponentUpdate (self : Chat P I) (nextProps : ChatProps P I) : Bool :=
  let currentDataIndex := self.props.currentDataIndex
  if currentDataIndex ≠ nextProps.currentDataIndex then true
  else false

/-- `componentDidUpdate()`. -/
def Chat.componentDidUpdate (AUTO_SCROLL : Bool) (getScrollTop : Node → Node → String → ℚ)
    (self : Chat P I) (dom : Dom) : Dom :=
  if !AUTO_SCROLL then dom
  else
    match self.firstNode, self.currentNode with
    | some firstNode, some currentNode =>
      let parentNode := currentNode.parentNode
      dom.setScrollTop parentNode (getScrollTop firstNode currentNode "bottom")
    | _, _ => dom

/-- `setRef(node, index)`; React calls it with `null` when a node goes away. -/
def Chat.setRef (self : Chat P I) (node : Option Node) (index : ℤ) : Chat P I :=
  let currentDataIndex := self.props.currentDataIndex
  let self1 : Chat P I :=
    if self.firstNode.isNone ∧ index = 0 then { self with firstNode := node }
    else self
  if index = currentDataIndex then { self1 with currentNode := node }
  else self1

/-- One rendered chat entry: the index its `ref` callback passes to `setRef`,
the `active` flag given to `renderAvatar` and `renderContent`, and the item. -/
structure ChatEntry where
  index : ℕ
  active : Bool
  item : ChatItem
  deriving DecidableEq, Repr

/-- `Chat.renderChat()`: `chat.map((item, index) => ...)`. -/
def Chat.renderChat (self : Chat P I) : List ChatEntry :=
  let chat := self.props.chat
  let currentDataIndex := self.props.currentDataIndex
  chat.enum.map fun (x : ℕ × ChatItem) =>
    let index : ℕ := x.1
    let item := x.2
    let active := decide ((index : ℤ) ≤ currentDataIndex)
    { index := index, active := active, item := item }

/-- The entry `renderChat` builds for a pair of an index and its item (the body
of the callback of `chat.map`, named for the proofs). -/
def chatEntry (currentDataIndex : ℤ) (x : ℕ × ChatItem) : ChatEntry :=
  { index := x.1, active := decide ((x.1 : ℤ) ≤ currentDataIndex), item := x.2 }

/-- A call of `setRef` together with the props in force when it is made. -/
abbrev SetRefCall (P I : Type) := ChatProps P I × Option Node × ℤ

/-- The instance after a sequence of `setRef` calls, the props being whatever
React has installed before each call. -/
def Chat.setRefCalls (self : Chat P I) (calls : List (SetRefCall P I)) : Chat P I :=
  calls.foldl (fun c x => Chat.setRef { c with props := x.1 } x.2.1 x.2.2) self

/-! ## Lemmas on `Math.round` and `handleTimeUpdate` -/

theorem mathRound_eq_round (v : ℚ) : mathRound v = ((round v : ℤ) : ℚ) := by
  unfold mathRound
  rw [round_eq]

theorem mathRound_mono {a b : ℚ} (h : a ≤ b) : mathRound a ≤ mathRound b := by
  unfold mathRound
  exact_mod_cast Int.floor_mono (by linarith)

theorem mathRound_intCast (n : ℤ) : mathRound (n : ℚ) = (n : ℚ) := by
  rw [mathRound_eq_round, round_intCast]

theorem handleTimeUpdate_time (self : Player P S W I) (v : ℚ) :
    (self.handleTimeUpdate v).state.time = mathRound v := by
  unfold Player.handleTimeUpdate
  by_cases h : self.state.time = mathRound v
  · simp [h]
  · simp [h, Player.setState]

theorem handleTimeUpdate_chat (self : Player P S W I) (v : ℚ) :
    (self.handleTimeUpdate v).chat = self.chat := by
  unfold Player.handleTimeUpdate
  by_cases h : self.state.time = mathRound v
  · simp [h]
  · simp [h, Player.setState]

theorem handleTimeUpdate_screenshare (self : Player P S W I) (v : ℚ) :
    (self.handleTimeUpdate v).screenshare = self.screenshare := by
  unfold Player.handleTimeUpdate
  by_cases h : self.state.time = mathRound v
  · simp [h]
  · simp [h, Player.setState]

theorem timeUpdates_time (self : Player P S W I) (vs : List ℚ) :
    (self.timeUpdates vs).map (fun p => p.state.time) = vs.map mathRound := by
  induction vs generalizing self with
  | nil => rfl
  | cons v vs ih => simp [Player.timeUpdates, handleTimeUpdate_time, ih]

theorem timeUpdates_chat (self : Player P S W I) (vs : List ℚ) :
    ∀ p ∈ self.timeUpdates vs, p.chat = self.chat := by
  induction vs generalizing self with
  | nil => simp [Player.timeUpdates]
  | cons v vs ih =>
    intro p hp
    simp only [Player.timeUpdates, List.mem_cons] at hp
    rcases hp with rfl | hp
    · exact handleTimeUpdate_chat self v
    · rw [ih _ p hp, handleTimeUpdate_chat]

theorem sorted_map_mathRound {vs : List ℚ} (h : List.Chain' (· ≤ ·) vs) :
    List.Sorted (· ≤ ·) (vs.map mathRound) := by
  have hs : List.Sorted (· ≤ ·) vs := List.chain'_iff_pairwise.mp h
  exact List.Pairwise.map mathRound (fun _ _ hab => mathRound_mono hab) hs

/-! ## Player: registration of the two players -/

/-- C1: from the initial state, registering `('video', v)` then
`('screenshare', s)`, or the other way round, leaves no synchronizer after the
first call and `Synchronizer(v, s)` after the second: the video player is the
first argument and the screenshare player the second in both orders. -/
theorem handlePlayerReady_order_independent (Synchronizer : P → P → S) (intl : I)
    (chat : List ChatItem) (screenshare : List W) (v s : P) :
    let init : Player P S W I := Player.new intl chat screenshare
    let a1 := init.handlePlayerReady Synchronizer "video" (some v)
    let a2 := a1.handlePlayerReady Synchronizer "screenshare" (some s)
    let b1 := init.handlePlayerReady Synchronizer "screenshare" (some s)
    let b2 := b1.handlePlayerReady Synchronizer "video" (some v)
    init.synchronizer = none ∧ init.player = { video := none, screenshare := none } ∧
    a1.synchronizer = none ∧ a2.synchronizer = some (Synchronizer v s) ∧
    b1.synchronizer = none ∧ b2.synchronizer = some (Synchronizer v s) ∧
    a2.player = { video := some v, screenshare := some s } ∧ b2.player = a2.player := by
  simp [Player.new, Player.handlePlayerReady]

theorem handlePlayerReady_screenshare (Synchronizer : P → P → S) (self : Player P S W I)
    (media : String) (player : Option P) :
    (self.handlePlayerReady Synchronizer media player).screenshare = self.screenshare := by
  unfold Player.handlePlayerReady
  dsimp only
  split <;> split_ifs <;> rfl

theorem readyCalls_screenshare (Synchronizer : P → P → S) (calls : List (ReadyCall P)) :
    ∀ (self : Player P S W I),
    (self.readyCalls Synchronizer calls).screenshare = self.screenshare := by
  induction calls with
  | nil => intro self; rfl
  | cons c cs ih =>
    intro self
    have := ih (self.handlePlayerReady Synchronizer c.1 c.2)
    rw [handlePlayerReady_screenshare] at this
    simpa [Player.readyCalls] using this

theorem handlePlayerReady_no_screenshare (Synchronizer : P → P → S) (self : Player P S W I)
    (media : String) (player : Option P) (hm : media ≠ "screenshare")
    (h : self.player.screenshare = none ∧ self.synchronizer = none) :
    (self.handlePlayerReady Synchronizer media player).player.screenshare = none ∧
    (self.handlePlayerReady Synchronizer media player).synchronizer = none := by
  obtain ⟨h1, h2⟩ := h
  unfold Player.handlePlayerReady
  by_cases hv : media = "video"
  · simp only [hv, if_true, h1]
    cases player <;> simp [h1, h2]
  · simp only [hv, hm, if_false, h1]
    cases hvid : self.player.video <;> simp [h1, h2]

theorem readyCalls_no_screenshare (Synchronizer : P → P → S) (calls : List (ReadyCall P)) :
    ∀ (self : Player P S W I), (∀ c ∈ calls, c.1 ≠ "screenshare") →
    self.player.screenshare = none ∧ self.synchronizer = none →
    (self.readyCalls Synchronizer calls).player.screenshare = none ∧
    (self.readyCalls Synchronizer calls).synchronizer = none := by
  induction calls with
  | nil => intro self _ h; simpa [Player.readyCalls] using h
  | cons c cs ih =>
    intro self hc h
    have h1 := handlePlayerReady_no_screenshare Synchronizer self c.1 c.2
      (hc c (List.mem_cons_self _ _)) h
    have := ih (self.handlePlayerReady Synchronizer c.1 c.2)
      (fun d hd => hc d (List.mem_cons_of_mem _ hd)) h1
    simpa [Player.readyCalls] using this

/-- C2: with an empty screenshare timeline `renderScreenshare` renders nothing,
and after every initial segment of a sequence of `handlePlayerReady` calls none
of which has the medium `'screenshare'`, the screenshare slot is still empty
and no synchronizer has been created. -/
theorem no_screenshare_no_synchronizer (Synchronizer : P → P → S) (intl : I)
    (chat : List ChatItem) (screenshare : List W) (calls : List (ReadyCall P))
    (h : ∀ c ∈ calls, c.1 ≠ "screenshare") (k : ℕ) (active : Bool) :
    let init : Player P S W I := Player.new intl chat screenshare
    (screenshare.length = 0 →
      (init.readyCalls Synchronizer (calls.take k)).renderScreenshare active = none) ∧
    (init.readyCalls Synchronizer (calls.take k)).player.screenshare = none ∧
    (init.readyCalls Synchronizer (calls.take k)).synchronizer = none := by
  intro init
  refine ⟨?_, ?_⟩
  · intro hs
    have hscr := readyCalls_screenshare Synchronizer (calls.take k) init
    have hinit : init.screenshare = screenshare := rfl
    simp [Player.renderScreenshare, hscr, hinit, List.length_eq_zero.mp hs]
  · exact readyCalls_no_screenshare Synchronizer (calls.take k) init
      (fun c hc => h c (List.mem_of_mem_take hc)) ⟨rfl, rfl⟩

/-- A witness for C2: two `'video'` registrations and one of an unknown medium,
with no screenshare timeline. -/
theorem no_screenshare_no_synchronizer_witness :
    let calls : List (ReadyCall ℕ) := [("video", some 7), ("audio", some 8), ("video", none)]
    let p : Player ℕ (ℕ × ℕ) ℕ Unit := (Player.new () [] []).readyCalls Prod.mk (calls.take 3)
    (∀ c ∈ calls, c.1 ≠ "screenshare") ∧
    (([] : List ℕ).length = 0 → p.renderScreenshare true = none) ∧
    p.player.screenshare = none ∧ p.synchronizer = none :=
  ⟨by decide, no_screenshare_no_synchronizer Prod.mk () [] ([] : List ℕ)
    [("video", some 7), ("audio", some 8), ("video", none)] (by decide) 3 true⟩

/-! ## Player: the time published to the children -/

/-- C3, as stated, fails: the video player reports `1/2` (non-negative) and
the state's time becomes `1`, not `1/2`. -/
theorem handleTimeUpdate_time_ne_value :
    (0 : ℚ) ≤ 1 / 2 ∧
    ((Player.new () [] [] : Player Unit Unit Unit Unit).handleTimeUpdate (1 / 2)).state.time = 1 ∧
    ((Player.new () [] [] : Player Unit Unit Unit Unit).handleTimeUpdate (1 / 2)).state.time
      ≠ 1 / 2 := by
  have h : mathRound (1 / 2) = 1 := by
    unfold mathRound
    norm_num
  refine ⟨by norm_num, ?_, ?_⟩
  · rw [handleTimeUpdate_time, h]
  · rw [handleTimeUpdate_time, h]
    norm_num

/-- C3, amended: for every non-negative value `v` reported by the video player
and every prior state, after `handleTimeUpdate(v)` the state's time, which is
the value passed to `getCurrentDataIndex`, `isEnabled` and `Presentation`, is
`Math.round(v)`; it is equal to `v` exactly when `v` is a whole number. -/
theorem handleTimeUpdate_time_eq_round (getCurrentDataIndex : List ChatItem → ℚ → ℤ)
    (isEnabled : List W → ℚ → Bool) (self : Player P S W I) (v : ℚ) (hv : 0 ≤ v)
    (active : Bool) :
    let p := self.handleTimeUpdate v
    p.state.time = mathRound v ∧
    (p.state.time = v ↔ ∃ n : ℕ, v = n) ∧
    (p.renderChat getCurrentDataIndex).currentDataIndex
      = getCurrentDataIndex self.chat (mathRound v) ∧
    (p.getActiveMain isEnabled).screenshare = isEnabled self.screenshare (mathRound v) ∧
    (p.renderPresentation active).time = mathRound v := by
  intro p
  have ht : p.state.time = mathRound v := handleTimeUpdate_time self v
  refine ⟨ht, ?_, ?_, ?_, ?_⟩
  · rw [ht]
    constructor
    · intro h
      refine ⟨⌊v + 1 / 2⌋.toNat, ?_⟩
      have h0 : (0 : ℤ) ≤ ⌊v + 1 / 2⌋ := Int.floor_nonneg.mpr (by linarith)
      calc v = mathRound v := h.symm
        _ = ((⌊v + 1 / 2⌋ : ℤ) : ℚ) := rfl
        _ = ((⌊v + 1 / 2⌋.toNat : ℤ) : ℚ) := by rw [Int.toNat_of_nonneg h0]
        _ = ((⌊v + 1 / 2⌋.toNat : ℕ) : ℚ) := Int.cast_natCast _
    · rintro ⟨n, rfl⟩
      exact_mod_cast mathRound_intCast (n : ℤ)
  · simp only [Player.renderChat, ht]
    rw [handleTimeUpdate_chat]
  · simp only [Player.getActiveMain, ht]
    rw [handleTimeUpdate_screenshare]
  · simp only [Player.renderPresentation, ht]

/-- A witness for C3 (amended): the value `5/2` after the initial state. -/
theorem handleTimeUpdate_time_eq_round_witness :
    (0 : ℚ) ≤ 5 / 2 ∧
    ((Player.new () [] [] : Player Unit Unit Unit Unit).handleTimeUpdate (5 / 2)).state.time
      = mathRound (5 / 2) :=
  ⟨by norm_num,
    (handleTimeUpdate_time_eq_round (fun _ _ => 0) (fun _ _ => false)
      (Player.new () [] [] : Player Unit Unit Unit Unit) (5 / 2) (by norm_num) true).1⟩

/-- C4: `getActiveMain` returns `screenshare = isEnabled(screenshare, time)`
and `presentation = !screenshare`, so exactly one of the two flags is set; and
`renderMain` hands these flags to the presentation and to the screenshare. -/
theorem getActiveMain_exclusive (isEnabled : List W → ℚ → Bool) (self : Player P S W I) :
    let m := self.getActiveMain isEnabled
    m.screenshare = isEnabled self.screenshare self.state.time ∧
    m.presentation = !m.screenshare ∧
    (m.presentation = true ∨ m.screenshare = true) ∧
    ¬(m.presentation = true ∧ m.screenshare = true) ∧
    (self.renderMain isEnabled).1.active = m.presentation ∧
    (∀ e, (self.renderMain isEnabled).2 = some e → e.active = m.screenshare) := by
  intro m
  refine ⟨rfl, rfl, ?_, ?_, rfl, ?_⟩
  · cases h : isEnabled self.screenshare self.state.time <;>
      simp [m, Player.getActiveMain, h]
  · cases h : isEnabled self.screenshare self.state.time <;>
      simp [m, Player.getActiveMain, h]
  · intro e he
    simp only [Player.renderMain, Player.renderScreenshare] at he
    split_ifs at he
    cases he
    rfl

/-- C6: if `getCurrentDataIndex(chat, t)` is non-decreasing in `t`, then for
every non-decreasing sequence of values fed one by one to `handleTimeUpdate`
the state times after each update are non-decreasing, and so are the
`currentDataIndex` values that `renderChat` passes to `Chat`. -/
theorem timeUpdates_monotone (getCurrentDataIndex : List ChatItem → ℚ → ℤ)
    (self : Player P S W I)
    (hmono : ∀ a b : ℚ, a ≤ b →
      getCurrentDataIndex self.chat a ≤ getCurrentDataIndex self.chat b)
    (vs : List ℚ) (hvs : List.Chain' (· ≤ ·) vs) :
    List.Sorted (· ≤ ·) ((self.timeUpdates vs).map fun p => p.state.time) ∧
    List.Sorted (· ≤ ·)
      ((self.timeUpdates vs).map fun p => (p.renderChat getCurrentDataIndex).currentDataIndex) := by
  have h1 : List.Sorted (· ≤ ·) ((self.timeUpdates vs).map fun p => p.state.time) := by
    rw [timeUpdates_time]
    exact sorted_map_mathRound hvs
  refine ⟨h1, ?_⟩
  have hmap : ((self.timeUpdates vs).map
        fun p => (p.renderChat getCurrentDataIndex).currentDataIndex)
      = ((self.timeUpdates vs).map fun p => p.state.time).map
          (getCurrentDataIndex self.chat) := by
    rw [List.map_map]
    apply List.map_congr_left
    intro p hp
    simp [Player.renderChat, timeUpdates_chat self vs p hp]
  rw [hmap]
  exact List.Pairwise.map _ (fun a b hab => hmono a b hab) h1

/-- A witness for C6: the values `0 ≤ 1/2 ≤ 3/2 ≤ 3/2` with the index
`⌊t⌋ - 1` standing for `getCurrentDataIndex`. -/
theorem timeUpdates_monotone_witness :
    List.Chain' (· ≤ ·) [(0 : ℚ), 1 / 2, 3 / 2, 3 / 2] ∧
    List.Sorted (· ≤ ·)
      (((Player.new () [] [] : Player Unit Unit Unit Unit).timeUpdates
        [(0 : ℚ), 1 / 2, 3 / 2, 3 / 2]).map fun p => p.state.time) ∧
    List.Sorted (· ≤ ·)
      (((Player.new () [] [] : Player Unit Unit Unit Unit).timeUpdates
        [(0 : ℚ), 1 / 2, 3 / 2, 3 / 2]).map
          fun p => (p.renderChat fun _ t => ⌊t⌋ - 1).currentDataIndex) :=
  ⟨by norm_num,
    timeUpdates_monotone (fun _ t => ⌊t⌋ - 1)
      (Player.new () [] [] : Player Unit Unit Unit Unit)
      (fun _ _ hab => Int.sub_le_sub_right (Int.floor_mono hab) 1)
      [(0 : ℚ), 1 / 2, 3 / 2, 3 / 2] (by norm_num)⟩

/-- C10: after `handleTimeUpdate(v)` the state's time is `⌊v + 1/2⌋`, an
integer nearest to `v` and within `1/2` of it; `setState` is called, with the
key `time` alone, exactly when that integer differs from the previous time;
a second `handleTimeUpdate(v)` changes nothing and calls nothing; and the
`thumbnails` flag keeps its value. -/
theorem handleTimeUpdate_rounds (self : Player P S W I) (v : ℚ) :
    let p := self.handleTimeUpdate v
    p.state.time = ((⌊v + 1 / 2⌋ : ℤ) : ℚ) ∧
    |p.state.time - v| ≤ 1 / 2 ∧
    (∀ n : ℤ, |p.state.time - v| ≤ |(n : ℚ) - v|) ∧
    (∀ n : ℤ, |(n : ℚ) - v| = 1 / 2 → (n : ℚ) ≤ p.state.time) ∧
    (self.state.time ≠ ((⌊v + 1 / 2⌋ : ℤ) : ℚ) →
      p.setStateCalls = self.setStateCalls ++
        [{ time := some ((⌊v + 1 / 2⌋ : ℤ) : ℚ), thumbnails := none }]) ∧
    (self.state.time = ((⌊v + 1 / 2⌋ : ℤ) : ℚ) → p = self) ∧
    p.handleTimeUpdate v = p ∧
    p.state.thumbnails = self.state.thumbnails := by
  intro p
  have ht : p.state.time = mathRound v := handleTimeUpdate_time self v
  have hr : mathRound v = ((round v : ℤ) : ℚ) := mathRound_eq_round v
  refine ⟨ht, ?_, ?_, ?_, ?_, ?_, ?_, ?_⟩
  · rw [ht, hr, abs_sub_comm]
    exact abs_sub_round v
  · intro n
    rw [ht, hr, abs_sub_comm, abs_sub_comm (n : ℚ)]
    exact round_le v n
  · intro n hn
    rw [ht]
    unfold mathRound
    have h1 : (n : ℚ) ≤ v + 1 / 2 := by
      have := le_abs_self ((n : ℚ) - v)
      rw [hn] at this
      linarith
    exact_mod_cast Int.le_floor.mpr h1
  · intro hne
    have hne2 : self.state.time ≠ mathRound v := hne
    simp only [p, Player.handleTimeUpdate, if_pos hne2]
    rfl
  · intro heq
    have heq2 : self.state.time = mathRound v := heq
    simp [p, Player.handleTimeUpdate, heq2]
  · have : ¬ (p.state.time ≠ mathRound v) := by simp [ht]
    unfold Player.handleTimeUpdate
    simp only [this, if_false]
  · simp only [p, Player.handleTimeUpdate]
    split_ifs <;> simp [Player.setState]

/-! ## Chat: updates and auto-scroll -/

/-- C5: `shouldComponentUpdate` returns `true` if and only if the next
`currentDataIndex` differs from the current one; a change of `chat`, `player`
and `intl` with the same `currentDataIndex` returns `false`. -/
theorem shouldComponentUpdate_iff (self : Chat P I) (nextProps : ChatProps P I) :
    (self.shouldComponentUpdate nextProps = true ↔
      nextProps.currentDataIndex ≠ self.props.currentDataIndex) ∧
    (self.shouldComponentUpdate nextProps = false ↔
      nextProps.currentDataIndex = self.props.currentDataIndex) ∧
    (∀ (chat : List ChatItem) (intl : I) (player : Option P),
      self.shouldComponentUpdate
        { chat := chat, currentDataIndex := self.props.currentDataIndex, intl := intl,
          player := player } = false) := by
  refine ⟨?_, ?_, ?_⟩
  · by_cases h : self.props.currentDataIndex = nextProps.currentDataIndex
    · simp [Chat.shouldComponentUpdate, h]
    · simp [Chat.shouldComponentUpdate, h, Ne.symm h]
  · by_cases h : self.props.currentDataIndex = nextProps.currentDataIndex
    · simp [Chat.shouldComponentUpdate, h]
    · simp [Chat.shouldComponentUpdate, h, Ne.symm h]
  · intro chat intl player
    simp [Chat.shouldComponentUpdate]

/-- C7: `componentDidUpdate` assigns a `scrollTop` if and only if `AUTO_SCROLL`
is on and both `firstNode` and `currentNode` are set; the assignment is then
`getScrollTop(firstNode, currentNode, 'bottom')` to the `scrollTop` of the
current node's parent, and nothing else changes; in every other case the
document is left as it was. -/
theorem componentDidUpdate_scrollTop (AUTO_SCROLL : Bool)
    (getScrollTop : Node → Node → String → ℚ) (self : Chat P I) (dom : Dom) :
    let dom1 := self.componentDidUpdate AUTO_SCROLL getScrollTop dom
    (dom1.scrollTopWrites ≠ dom.scrollTopWrites ↔
      AUTO_SCROLL = true ∧ self.firstNode.isSome = true ∧ self.currentNode.isSome = true) ∧
    (∀ firstNode currentNode : Node, AUTO_SCROLL = true →
      self.firstNode = some firstNode → self.currentNode = some currentNode →
      dom1.scrollTopWrites = dom.scrollTopWrites ++
        [(currentNode.parentNode, getScrollTop firstNode currentNode "bottom")] ∧
      dom1.scrollTop currentNode.parentNode = getScrollTop firstNode currentNode "bottom" ∧
      ∀ e, e ≠ currentNode.parentNode → dom1.scrollTop e = dom.scrollTop e) ∧
    (¬(AUTO_SCROLL = true ∧ self.firstNode.isSome = true ∧ self.currentNode.isSome = true) →
      dom1 = dom) := by
  intro dom1
  cases ha : AUTO_SCROLL
  · have h1 : dom1 = dom := by simp [dom1, Chat.componentDidUpdate, ha]
    simp [h1]
  · cases hf : self.firstNode with
    | none =>
      have h1 : dom1 = dom := by simp [dom1, Chat.componentDidUpdate, ha, hf]
      simp [h1]
    | some f =>
      cases hc : self.currentNode with
      | none =>
        have h1 : dom1 = dom := by simp [dom1, Chat.componentDidUpdate, ha, hf, hc]
        simp [h1]
      | some c =>
        have h1 : dom1 = dom.setScrollTop c.parentNode (getScrollTop f c "bottom") := by
          simp [dom1, Chat.componentDidUpdate, ha, hf, hc]
        refine ⟨?_, ?_, ?_⟩
        · simp [h1, Dom.setScrollTop]
        · intro f1 c1 _ hf1 hc1
          cases hf1
          cases hc1
          refine ⟨by simp [h1, Dom.setScrollTop], by simp [h1, Dom.setScrollTop], ?_⟩
          intro e he
          simp [h1, Dom.setScrollTop, he]
        · intro hn
          simp at hn

/-! ## Chat: the node fields -/

theorem setRef_firstNode_of_some (self : Chat P I) (node : Option Node) (index : ℤ)
    (n : Node) (h : self.firstNode = some n) :
    (self.setRef node index).firstNode = some n := by
  unfold Chat.setRef
  simp only [h, Option.isNone_some, Bool.false_eq_true, false_and, if_false]
  split_ifs <;> first | rfl | exact h

theorem setRef_firstNode_changed (self : Chat P I) (node : Option Node) (index : ℤ)
    (h : (self.setRef node index).firstNode ≠ self.firstNode) :
    index = 0 ∧ self.firstNode = none ∧ (self.setRef node index).firstNode = node := by
  unfold Chat.setRef at h ⊢
  by_cases h0 : self.firstNode.isNone = true ∧ index = 0
  · simp only [h0, and_self, if_true]
    refine ⟨trivial, Option.isNone_iff_eq_none.mp h0.1, ?_⟩
    split_ifs <;> rfl
  · exfalso
    apply h
    simp only [h0, if_false]
    split_ifs <;> rfl

/-- C8: once `firstNode` holds a node, no sequence of later `setRef` calls,
whatever their node (`null` included), index and `currentDataIndex`, changes
it; and a `setRef` call that changes `firstNode` has index `0` (and finds the
field empty). -/
theorem setRef_firstNode_once (self : Chat P I) (n : Node) (h : self.firstNode = some n)
    (calls : List (SetRefCall P I)) :
    (∀ k, (self.setRefCalls (calls.take k)).firstNode = some n) ∧
    (∀ (c : Chat P I) (node : Option Node) (index : ℤ),
      (c.setRef node index).firstNode ≠ c.firstNode → index = 0 ∧ c.firstNode = none) := by
  constructor
  · intro k
    generalize calls.take k = cs
    induction cs generalizing self with
    | nil => simpa [Chat.setRefCalls] using h
    | cons x xs ih =>
      have hstep : (Chat.setRef { self with props := x.1 } x.2.1 x.2.2).firstNode = some n :=
        setRef_firstNode_of_some _ _ _ n h
      simpa [Chat.setRefCalls] using ih _ hstep
  · intro c node index hne
    exact ⟨(setRef_firstNode_changed c node index hne).1,
      (setRef_firstNode_changed c node index hne).2.1⟩

/-- A witness for C8: the first node is registered, then `setRef` is called
with `null` and with other nodes at index `0` under changing props. -/
theorem setRef_firstNode_once_witness :
    let props : ChatProps Unit Unit :=
      { chat := [], currentDataIndex := 0, intl := (), player := none }
    let props3 : ChatProps Unit Unit :=
      { chat := [], currentDataIndex := 3, intl := (), player := none }
    let self : Chat Unit Unit := (Chat.new props).setRef (some ⟨1, 0⟩) 0
    let calls : List (SetRefCall Unit Unit) :=
      [(props, none, 0), (props3, some ⟨2, 0⟩, 0), (props3, some ⟨3, 0⟩, 3)]
    self.firstNode = some ⟨1, 0⟩ ∧
    (self.setRefCalls (calls.take 3)).firstNode = some ⟨1, 0⟩ :=
  ⟨by decide,
    (setRef_firstNode_once
      ((Chat.new ({ chat := [], currentDataIndex := 0, intl := (), player := none } :
        ChatProps Unit Unit)).setRef (some ⟨1, 0⟩) 0)
      ⟨1, 0⟩ (by decide) _).1 3⟩

/-! ## Chat: the active entries -/

theorem renderChat_eq (self : Chat P I) :
    self.renderChat = self.props.chat.enum.map (chatEntry self.props.currentDataIndex) := rfl

theorem countP_active_enumFrom (c : ℤ) (l : List ChatItem) :
    ∀ n : ℕ, (((l.enumFrom n).map (chatEntry c)).countP (fun e => e.active) : ℤ)
      = min (l.length : ℤ) (max 0 (c + 1 - n)) := by
  induction l with
  | nil => intro n; simp
  | cons a l ih =>
    intro n
    have := ih (n + 1)
    simp only [List.enumFrom_cons, List.map_cons, List.countP_cons, List.length_cons,
      Nat.cast_add, Nat.cast_one] at this ⊢
    rw [this]
    by_cases h : (n : ℤ) ≤ c
    · simp only [chatEntry, h, decide_True, if_true]
      rcases le_total ((l.length : ℤ)) (max 0 (c + 1 - (n + 1))) with h1 | h1 <;>
        rcases le_total (0 : ℤ) (c + 1 - (n + 1)) with h2 | h2 <;>
        simp only [min_def, max_def] <;> split_ifs <;> omega
    · simp only [chatEntry, h, decide_False, Bool.false_eq_true, if_false]
      simp only [min_def, max_def]
      split_ifs <;> omega

/-- C9: `Chat.renderChat` renders entry `i` active if and only if
`i <= currentDataIndex`: the active entries are an initial segment of the
list, their number is `min(length, max(0, currentDataIndex + 1))`, and none
is active when `currentDataIndex` is `-1`. -/
theorem renderChat_active (self : Chat P I) :
    let chat := self.props.chat
    let c := self.props.currentDataIndex
    let entries := self.renderChat
    entries.length = chat.length ∧
    (∀ i : ℕ, entries[i]? =
      chat[i]?.map fun item => { index := i, active := decide ((i : ℤ) ≤ c), item := item }) ∧
    (∀ (i : ℕ) (e : ChatEntry), entries[i]? = some e → (e.active = true ↔ (i : ℤ) ≤ c)) ∧
    (∀ (i j : ℕ) (e e1 : ChatEntry), j < i → entries[i]? = some e → entries[j]? = some e1 →
      e.active = true → e1.active = true) ∧
    ((entries.countP (fun e => e.active) : ℤ) = min (chat.length : ℤ) (max 0 (c + 1))) ∧
    (c = -1 → ∀ e ∈ entries, e.active = false) := by
  intro chat c entries
  have hget : ∀ i : ℕ, entries[i]? =
      chat[i]?.map fun item => { index := i, active := decide ((i : ℤ) ≤ c), item := item } := by
    intro i
    simp only [entries, renderChat_eq, List.getElem?_map, List.enum, List.getElem?_enumFrom]
    cases h : self.props.chat[i]? with
    | none => simp [chat, h]
    | some item => simp [chat, h, chatEntry, c]
  have hact : ∀ (i : ℕ) (e : ChatEntry), entries[i]? = some e →
      (e.active = true ↔ (i : ℤ) ≤ c) := by
    intro i e he
    rw [hget i] at he
    cases h : chat[i]? with
    | none => simp [h] at he
    | some item =>
      simp only [h, Option.map_some', Option.some.injEq] at he
      subst he
      simp
  refine ⟨by simp [entries, renderChat_eq, chat], hget, hact, ?_, ?_, ?_⟩
  · intro i j e e1 hji he he1 ha
    have hi := (hact i e he).mp ha
    exact (hact j e1 he1).mpr (by omega)
  · have := countP_active_enumFrom c chat 0
    simpa [entries, renderChat_eq, List.enum, chat, c] using this
  · intro hc e he
    obtain ⟨i, hi⟩ := List.getElem?_of_mem he
    have := hact i e hi
    cases hea : e.active with
    | false => rfl
    | true =>
      have := this.mp hea
      omega

/-! ## The theorems at concrete inputs -/

/-- C1 at the players `1` (video) and `2` (screenshare), a synchronizer being
the pair of its arguments: both orders end with the pair `(1, 2)`. -/
theorem handlePlayerReady_order_independent_witness :
    let init : Player ℕ (ℕ × ℕ) ℕ Unit := Player.new () [] []
    ((init.handlePlayerReady Prod.mk "video" (some 1)).handlePlayerReady Prod.mk
        "screenshare" (some 2)).synchronizer = some (1, 2) ∧
    ((init.handlePlayerReady Prod.mk "screenshare" (some 2)).handlePlayerReady Prod.mk
        "video" (some 1)).synchronizer = some (1, 2) := by
  have h := handlePlayerReady_order_independent (Prod.mk : ℕ → ℕ → ℕ × ℕ) ()
    ([] : List ChatItem) ([] : List ℕ) 1 2
  exact ⟨h.2.2.2.1, h.2.2.2.2.2.1⟩

/-- C4 with a screenshare that is on from second `10`: at time `0` the
presentation is the active view. -/
theorem getActiveMain_exclusive_witness :
    let p : Player Unit Unit ℚ Unit := Player.new () [] [10]
    let isEnabled : List ℚ → ℚ → Bool := fun w t => w.any fun start => decide (start ≤ t)
    (p.getActiveMain isEnabled).presentation = !(p.getActiveMain isEnabled).screenshare :=
  (getActiveMain_exclusive (fun w t => w.any fun start => decide (start ≤ t))
    (Player.new () [] [10] : Player Unit Unit ℚ Unit)).2.1

/-- C5 at the indices `1` and `2`: the component updates. -/
theorem shouldComponentUpdate_iff_witness :
    let props : ChatProps Unit Unit :=
      { chat := [], currentDataIndex := 1, intl := (), player := none }
    let nextProps : ChatProps Unit Unit :=
      { chat := [], currentDataIndex := 2, intl := (), player := none }
    (Chat.new props).shouldComponentUpdate nextProps = true :=
  (shouldComponentUpdate_iff
    (Chat.new ({ chat := [], currentDataIndex := 1, intl := (), player := none } :
      ChatProps Unit Unit))
    { chat := [], currentDataIndex := 2, intl := (), player := none }).1.mpr (by decide)

/-- C7 with both nodes set under the element `9`: the one assignment made is
to the `scrollTop` of element `9`. -/
theorem componentDidUpdate_scrollTop_witness :
    let self : Chat Unit Unit :=
      { props := { chat := [], currentDataIndex := 4, intl := (), player := none }
        firstNode := some ⟨0, 9⟩
        currentNode := some ⟨4, 9⟩ }
    let getScrollTop : Node → Node → String → ℚ := fun f c _ => (c.id : ℚ) - f.id
    (self.componentDidUpdate true getScrollTop ⟨fun _ => 0, []⟩).scrollTopWrites
      = [] ++ [(9, getScrollTop ⟨0, 9⟩ ⟨4, 9⟩ "bottom")] :=
  ((componentDidUpdate_scrollTop true (fun f c _ => (c.id : ℚ) - f.id)
    ({ props := { chat := [], currentDataIndex := 4, intl := (), player := none }
       firstNode := some ⟨0, 9⟩
       currentNode := some ⟨4, 9⟩ } : Chat Unit Unit)
    ⟨fun _ => 0, []⟩).2.1 ⟨0, 9⟩ ⟨4, 9⟩ rfl rfl rfl).1

/-- C9 on three messages with the current index `1`: two entries are active. -/
theorem renderChat_active_witness :
    let self : Chat Unit Unit := Chat.new
      { chat := [⟨"A", "ann", 0⟩, ⟨"B", "bob", 5⟩, ⟨"C", "cy", 12⟩]
        currentDataIndex := 1, intl := (), player := none }
    (self.renderChat.map fun e => e.active) = [true, true, false] ∧
    ((self.renderChat.countP fun e => e.active : ℕ) : ℤ)
      = min ((3 : ℕ) : ℤ) (max 0 (1 + 1)) :=
  ⟨by decide,
    (renderChat_active (Chat.new
      ({ chat := [⟨"A", "ann", 0⟩, ⟨"B", "bob", 5⟩, ⟨"C", "cy", 12⟩]
         currentDataIndex := 1, intl := (), player := none } :
        ChatProps Unit Unit))).2.2.2.2.1⟩

/-- C10 at the value `5/2` after the initial state: the time becomes
`⌊5/2 + 1/2⌋` and the `thumbnails` flag stays off. -/
theorem handleTimeUpdate_rounds_witness :
    let p : Player Unit Unit Unit Unit := (Player.new () [] []).handleTimeUpdate (5 / 2)
    p.state.time = ((⌊(5 / 2 : ℚ) + 1 / 2⌋ : ℤ) : ℚ) ∧ p.state.thumbnails = false :=
  ⟨(handleTimeUpdate_rounds (Player.new () [] [] : Player Unit Unit Unit Unit) (5 / 2)).1,
    (handleTimeUpdate_rounds (Player.new () [] [] : Player Unit Unit Unit Unit)
      (5 / 2)).2.2.2.2.2.2.2⟩

end BbbPlayback
